import Mathlib

/-!
Verification of the nestjs-drizzle adapter (Postgres / MySQL / SQLite-family
modules for a dependency-injection framework over the drizzle ORM).

The embedding is shallow: option records become Lean structures, JavaScript
string truthiness is made explicit, template-literal SQL helpers become
functions from the rendered arguments to the rendered fragment string, the
ORM builder chains become a small deep syntax of the calls the underlying
ORM receives, and code that throws returns `Except String`.
-/

namespace NestjsDrizzle

/-- JavaScript truthiness of an optional string: `undefined` (here `none`)
and the empty string are falsy, every other string is truthy. -/
def strTruthy : Option String → Bool
  | none => false
  | some s => !s.isEmpty

/-- The message thrown by `databaseWithDefault` in
`src/postgres/postgres.service.ts` and `src/mysql/mysql.module.ts`. -/
def dbUrlRequiredMsg : String :=
  "Database connection string is required. Provide it via options or DATABASE_URL environment variable."

/-- Embeds `databaseWithDefault` (identical in
`src/postgres/postgres.service.ts` lines 16-21, `src/postgres/postgres.module.ts`
lines 9-14 and `src/mysql/mysql.module.ts` lines 9-14):
throw when both the option and `process.env.DATABASE_URL` are falsy,
otherwise return `connectionString || process.env.DATABASE_URL`. -/
def databaseWithDefault (connectionString envDatabaseUrl : Option String) :
    Except String String :=
  if !strTruthy connectionString && !strTruthy envDatabaseUrl then
    .error dbUrlRequiredMsg
  else if strTruthy connectionString then
    .ok (connectionString.getD "")
  else
    .ok (envDatabaseUrl.getD "")

/-- C1: connection-string resolution at module registration errors exactly
when both the `connectionString` option and the `DATABASE_URL` environment
variable are unset (falsy), and whenever the option is set it takes
precedence: the environment variable is ignored. -/
theorem databaseWithDefault_error_iff_and_precedence
    (cs env : Option String) :
    (databaseWithDefault cs env = .error dbUrlRequiredMsg ↔
      strTruthy cs = false ∧ strTruthy env = false) ∧
    (strTruthy cs = true → databaseWithDefault cs env = .ok (cs.getD "")) := by
  cases hc : strTruthy cs <;> cases he : strTruthy env <;>
    simp [databaseWithDefault, hc, he]

/-- Witness for C1: with both sources set, the option wins. -/
theorem databaseWithDefault_error_iff_and_precedence_witness :
    databaseWithDefault (some "postgres://opt") (some "postgres://env") =
      .ok "postgres://opt" :=
  (databaseWithDefault_error_iff_and_precedence
    (some "postgres://opt") (some "postgres://env")).2 (by decide)

/-- C10: an explicitly provided empty `connectionString` is treated as
absent: the `DATABASE_URL` environment variable is used when it is set to a
non-empty value, and the missing-configuration error is raised when the
variable is unset. -/
theorem databaseWithDefault_empty_treated_as_absent
    (u : String) (hu : u.isEmpty = false) :
    databaseWithDefault (some "") (some u) = .ok u ∧
    databaseWithDefault (some "") none = .error dbUrlRequiredMsg := by
  have h0 : ("" : String).isEmpty = true := by decide
  refine ⟨?_, ?_⟩ <;> simp [databaseWithDefault, strTruthy, hu, h0]

/-- Witness for C10 at a concrete non-empty environment value. -/
theorem databaseWithDefault_empty_treated_as_absent_witness :
    databaseWithDefault (some "") (some "postgres://env") = .ok "postgres://env" ∧
    databaseWithDefault (some "") none = .error dbUrlRequiredMsg :=
  databaseWithDefault_empty_treated_as_absent "postgres://env" (by decide)

/-! ## SQL-expression helpers (src/postgres/index.ts appended to
postgres.service.ts, src/sqlite/index.ts, src/mysql/index.ts)

A helper's column / SQL arguments are modelled by their rendered text; a
helper returns the rendered fragment, with `sql.raw` pieces inlined just as
the template literal assembles them. -/

/-- The date parts of the SQLite and MySQL `extract` union type. -/
inductive DatePart
  | year
  | month
  | day
  | hour
  | minute
  | second
  deriving DecidableEq

/-- The TypeScript string literal of a date part. -/
def DatePart.lit : DatePart → String
  | .year => "year"
  | .month => "month"
  | .day => "day"
  | .hour => "hour"
  | .minute => "minute"
  | .second => "second"

/-- Embeds `extract` from the Postgres helper file (lines 268-273): the
part string (the union also admits "epoch") is interpolated raw into
`extract(part from date)`. -/
def pgExtract (part date : String) : String :=
  "extract(" ++ part ++ " from " ++ date ++ ")"

/-- `extractMap` inside `extract` of src/sqlite/index.ts. -/
def sqliteExtractMap : DatePart → String
  | .year => "%Y"
  | .month => "%m"
  | .day => "%d"
  | .hour => "%H"
  | .minute => "%M"
  | .second => "%S"

/-- Embeds `extract` from src/sqlite/index.ts lines 134-148. -/
def sqliteExtract (part : DatePart) (date : String) : String :=
  "cast(strftime('" ++ sqliteExtractMap part ++ "', " ++ date ++ ") as integer)"

/-- `partMap` inside `extract` of src/mysql/index.ts. -/
def mysqlPartMap : DatePart → String
  | .year => "YEAR"
  | .month => "MONTH"
  | .day => "DAY"
  | .hour => "HOUR"
  | .minute => "MINUTE"
  | .second => "SECOND"

/-- Embeds `extract` from src/mysql/index.ts lines 133-147. -/
def mysqlExtract (part : DatePart) (date : String) : String :=
  "EXTRACT(" ++ mysqlPartMap part ++ " FROM " ++ date ++ ")"

/-- C2 counterexample: the MySQL `extract` at part year does not emit the
claimed `YEAR(x)` function form, and the SQLite one wraps the claimed
`strftime` call in a cast. -/
theorem extract_year_claimed_fragments_false :
    mysqlExtract .year "x" ≠ "YEAR(x)" ∧
    sqliteExtract .year "x" ≠ "strftime('%Y', x)" := by
  constructor <;> decide

/-- C2 (amended): for every date expression x, `extract` at part year
emits `extract(year from x)` for Postgres,
`cast(strftime('%Y', x) as integer)` for SQLite, and
`EXTRACT(YEAR FROM x)` for MySQL. -/
theorem extract_year_fragments (x : String) :
    pgExtract "year" x = "extract(year from " ++ x ++ ")" ∧
    sqliteExtract .year x = "cast(strftime('%Y', " ++ x ++ ") as integer)" ∧
    mysqlExtract .year x = "EXTRACT(YEAR FROM " ++ x ++ ")" :=
  ⟨rfl, rfl, rfl⟩

/-- JavaScript `s.split(' ')` over the character list (structurally
recursive so that proofs can evaluate it): splitting the empty string gives
one empty piece, and consecutive spaces give empty pieces, as in JS. -/
def splitSpaceChars : List Char → List String
  | [] => [""]
  | c :: cs =>
    match splitSpaceChars cs, decide (c = ' ') with
    | rest, true => "" :: rest
    | h :: t, false => String.mk (c :: h.data) :: t
    | [], false => [String.mk [c]]

/-- JavaScript `interval.split(' ')`. -/
def jsSplitSpace (s : String) : List String :=
  splitSpaceChars s.data

/-- JavaScript `toLowerCase`, character by character. -/
def jsToLower (s : String) : String :=
  String.mk (s.data.map Char.toLower)

/-- The two interval operators of the `dateAdd` helpers. -/
inductive SqlOp
  | plus
  | minus
  deriving DecidableEq

/-- The raw character the operator interpolates to. -/
def SqlOp.raw : SqlOp → String
  | .plus => "+"
  | .minus => "-"

/-- `unitMap` inside `dateAdd` of src/sqlite/index.ts lines 164-177. -/
def sqliteUnitMap : String → Option String
  | "day" | "days" => some "days"
  | "month" | "months" => some "months"
  | "year" | "years" => some "years"
  | "hour" | "hours" => some "hours"
  | "minute" | "minutes" => some "minutes"
  | "second" | "seconds" => some "seconds"
  | _ => none

/-- Embeds `dateAdd` from src/sqlite/index.ts lines 158-185: the interval
string is split on spaces into amount and unit, the unit is lower-cased and
looked up in `unitMap`, and an unsupported unit throws. When the interval
has no second token, `unit.toLowerCase()` throws a TypeError in JavaScript,
modelled as an error as well. -/
def sqliteDateAdd (date : String) (op : SqlOp) (interval : String) :
    Except String String :=
  match jsSplitSpace interval with
  | amount :: unit :: _ =>
    match sqliteUnitMap (jsToLower unit) with
    | some sqliteUnit =>
      .ok ("datetime(" ++ date ++ ", '" ++ op.raw ++ amount ++ " " ++
        sqliteUnit ++ "')")
    | none => .error ("Unsupported interval unit: " ++ unit)
  | _ => .error "TypeError: cannot read toLowerCase of undefined"

/-- The unit the SQLite `dateAdd` resolves for an interval string: the
lower-cased second space-separated token looked up in `unitMap`. -/
def sqliteIntervalUnit (interval : String) : Option String :=
  match jsSplitSpace interval with
  | _ :: unit :: _ => sqliteUnitMap (jsToLower unit)
  | _ => none

/-- Embeds `dateAdd` from src/mysql/index.ts lines 157-168: split the
interval into amount and unit and branch on the operator; total, never
throws. A missing second token reaches `sql.raw` as `undefined`, modelled
here by the rendered text "undefined". -/
def mysqlDateAdd (date : String) (op : SqlOp) (interval : String) : String :=
  let amount := (jsSplitSpace interval).headD ""
  let unit := ((jsSplitSpace interval).drop 1).headD "undefined"
  match op with
  | .plus => "DATE_ADD(" ++ date ++ ", INTERVAL " ++ amount ++ " " ++ unit ++ ")"
  | .minus => "DATE_SUB(" ++ date ++ ", INTERVAL " ++ amount ++ " " ++ unit ++ ")"

/-- Whether an embedded fallible computation failed. -/
def isError {α : Type} : Except String α → Bool
  | .error _ => true
  | .ok _ => false

/-- C3 counterexample: the SQLite `dateAdd` helper parses its interval
argument and raises an error on an unsupported unit, so not every helper is
a validation-free template substitution. -/
theorem sqliteDateAdd_raises_counterexample :
    sqliteDateAdd "d" .plus "1 fortnight" =
      .error "Unsupported interval unit: fortnight" := by
  rfl

/-- C3 (amended): the SQLite `dateAdd` parses its interval and errors
exactly when no unit token is recognised, while the MySQL `dateAdd` merely
splits its interval and branches on the operator, returning a fragment for
every input. -/
theorem sqliteDateAdd_validates_mysqlDateAdd_total
    (date interval : String) (op : SqlOp) :
    (isError (sqliteDateAdd date op interval) = true ↔
      sqliteIntervalUnit interval = none) ∧
    mysqlDateAdd date .plus ("1 DAY") =
      "DATE_ADD(" ++ date ++ ", INTERVAL 1 DAY)" ∧
    mysqlDateAdd date .minus ("1 DAY") =
      "DATE_SUB(" ++ date ++ ", INTERVAL 1 DAY)" := by
  have hA : (jsSplitSpace "1 DAY").headD "" = "1" := rfl
  have hU : ((jsSplitSpace "1 DAY").drop 1).headD "undefined" = "DAY" := rfl
  refine ⟨?_, ?_, ?_⟩
  · unfold sqliteDateAdd sqliteIntervalUnit
    cases h : jsSplitSpace interval with
    | nil => simp [isError]
    | cons a t =>
      cases t with
      | nil => simp [isError]
      | cons u t2 =>
        cases hu : sqliteUnitMap (jsToLower u) <;> simp [isError, hu]
  · simp only [mysqlDateAdd, hA, hU]
    apply String.ext
    simp [String.data_append, List.append_assoc]
  · simp only [mysqlDateAdd, hA, hU]
    apply String.ext
    simp [String.data_append, List.append_assoc]

/-! ## The DrizzleService wrapper methods

`src/postgres/postgres.service.ts` (lines 55-116), the MySQL service and
`src/sqlite/sqlite.service.ts` define the same wrapper bodies over the
dialect-specific drizzle database object. The ORM builder API the wrappers
use is embedded as a deep syntax: a finished chain is an `OrmQuery`
recording exactly which builder calls ran with which arguments. A table is
its name with its ordered column record (what `getTableColumns` returns);
`κ` is the type of column objects, `ν` the type of insert/update rows. -/

/-- A drizzle table as the services see it: `getTableColumns` yields its
ordered column record. -/
structure Table (κ : Type) where
  name : String
  columns : List (String × κ)

/-- Embeds drizzle-orm `getTableColumns`. -/
def getTableColumns {κ : Type} (t : Table κ) : List (String × κ) :=
  t.columns

/-- The argument of the ORM builder `.values(...)`: drizzle accepts one row
or an array of rows, and the wrappers pass theirs through as given. -/
inductive ValuesArg (ν : Type)
  | one (v : ν)
  | many (vs : List ν)

/-- The underlying ORM call a finished builder chain performs. -/
inductive OrmQuery (κ ν : Type)
  | selectFrom (sel : Option (List (String × κ))) (table : Table κ)
  | insertValues (table : Table κ) (vals : ValuesArg ν)
  | updateSet (table : Table κ) (set : ν)
  | deleteFrom (table : Table κ)

/-- The object `db.select(sel)` returns, remembering the selection. -/
structure SelectBuilder (κ ν : Type) where
  sel : Option (List (String × κ))

/-- `db.select(sel)`. -/
def dbSelect {κ ν : Type} (sel : Option (List (String × κ))) :
    SelectBuilder κ ν :=
  ⟨sel⟩

/-- `.from(table)` on a select builder (named `fromTable` here because
`from` is reserved in Lean). -/
def SelectBuilder.fromTable {κ ν : Type} (b : SelectBuilder κ ν)
    (t : Table κ) : OrmQuery κ ν :=
  .selectFrom b.sel t

/-- The object `db.insert(table)` returns. -/
structure InsertBuilder (κ ν : Type) where
  table : Table κ

/-- `db.insert(table)`. -/
def dbInsert {κ ν : Type} (t : Table κ) : InsertBuilder κ ν :=
  ⟨t⟩

/-- `.values(vs)` on an insert builder. -/
def InsertBuilder.values {κ ν : Type} (b : InsertBuilder κ ν)
    (vs : ValuesArg ν) : OrmQuery κ ν :=
  .insertValues b.table vs

/-- The object `db.update(table)` returns. -/
structure UpdateBuilder (κ ν : Type) where
  table : Table κ

/-- `db.update(table)`. -/
def dbUpdate {κ ν : Type} (t : Table κ) : UpdateBuilder κ ν :=
  ⟨t⟩

/-- `.set(s)` on an update builder. -/
def UpdateBuilder.set {κ ν : Type} (b : UpdateBuilder κ ν) (s : ν) :
    OrmQuery κ ν :=
  .updateSet b.table s

/-- `db.delete(table)`. -/
def dbDelete {κ ν : Type} (t : Table κ) : OrmQuery κ ν :=
  .deleteFrom t

namespace DrizzleService

/-- `get(from, select)`: `this.db.select(select).from(from)`. -/
def get {κ ν : Type} (fromT : Table κ)
    (sel : Option (List (String × κ))) : OrmQuery κ ν :=
  (dbSelect sel).fromTable fromT

/-- `getWithout(table, select)`: filter `getTableColumns(table)` by the
keys of the exclusion record (`Object.keys(select || {})`), then call
`get`. The exclusion record is a list of key/flag pairs; only its keys are
consulted, as in the source. -/
def getWithout {κ ν : Type} (t : Table κ)
    (sel : Option (List (String × Bool))) : OrmQuery κ ν :=
  let columns := getTableColumns t
  let resultColumns := columns.filter
    (fun kv => !((sel.getD []).map Prod.fst).contains kv.1)
  get t (some resultColumns)

/-- `update(table, set)`: `this.db.update(table).set(set)`. -/
def update {κ ν : Type} (t : Table κ) (s : ν) : OrmQuery κ ν :=
  (dbUpdate t).set s

/-- `insert(table, set)`: `this.db.insert(table).values(set)`. -/
def insert {κ ν : Type} (t : Table κ) (s : ν) : OrmQuery κ ν :=
  (dbInsert t).values (.one s)

/-- `insertMany(table, values)`: `this.db.insert(table).values(values)`. -/
def insertMany {κ ν : Type} (t : Table κ) (vs : List ν) : OrmQuery κ ν :=
  (dbInsert t).values (.many vs)

/-- `delete(table)`: `this.db.delete(table)`. -/
def delete {κ ν : Type} (t : Table κ) : OrmQuery κ ν :=
  dbDelete t

end DrizzleService

/-- C4: each wrapper method forwards its arguments unchanged: tracing the
builder chains, `get` performs `select(select).from(from)` (the net ORM
call is a select of exactly `sel` from exactly `fromT`), `insert` and
`insertMany` perform `insert(table).values(v)`, `update` performs
`update(table).set(set)`, and `delete` performs `delete(table)`, with the
arguments appearing untouched in the underlying call. -/
theorem wrappers_forward_arguments {κ ν : Type} (t : Table κ)
    (sel : Option (List (String × κ))) (v : ν) (vs : List ν) (s : ν) :
    DrizzleService.get (ν := ν) t sel = (dbSelect sel).fromTable t ∧
    DrizzleService.get (ν := ν) t sel = .selectFrom sel t ∧
    DrizzleService.insert (κ := κ) t v = (dbInsert t).values (.one v) ∧
    DrizzleService.insert (κ := κ) t v = .insertValues t (.one v) ∧
    DrizzleService.insertMany (κ := κ) t vs = (dbInsert t).values (.many vs) ∧
    DrizzleService.insertMany (κ := κ) t vs = .insertValues t (.many vs) ∧
    DrizzleService.update (κ := κ) t s = (dbUpdate t).set s ∧
    DrizzleService.update (κ := κ) t s = .updateSet t s ∧
    DrizzleService.delete (κ := κ) (ν := ν) t = dbDelete t ∧
    DrizzleService.delete (κ := κ) (ν := ν) t = .deleteFrom t :=
  ⟨rfl, rfl, rfl, rfl, rfl, rfl, rfl, rfl, rfl, rfl⟩

/-- C9: `getWithout` selects exactly the columns of the table whose names
are not keys of the exclusion record, in the table's column order (the
selection is a sublist of the column record), and with the record absent it
selects all columns. -/
theorem getWithout_selects_complement {κ ν : Type} (t : Table κ)
    (sel : Option (List (String × Bool))) :
    (∃ cols, DrizzleService.getWithout (ν := ν) t sel =
        .selectFrom (some cols) t ∧
      List.Sublist cols t.columns ∧
      ∀ kv, kv ∈ cols ↔
        kv ∈ t.columns ∧ kv.1 ∉ (sel.getD []).map Prod.fst) ∧
    DrizzleService.getWithout (ν := ν) t none =
      .selectFrom (some t.columns) t := by
  constructor
  · refine ⟨t.columns.filter
      (fun kv => !((sel.getD []).map Prod.fst).contains kv.1), rfl, ?_, ?_⟩
    · exact List.filter_sublist t.columns
    · intro kv
      simp [List.mem_filter, List.elem_iff]
  · simp [DrizzleService.getWithout, DrizzleService.get, dbSelect,
      SelectBuilder.fromTable, getTableColumns]

/-! ## The transaction wrappers

The Postgres and MySQL services return `this.db.transaction(callback)`
directly; their promise-valued effects are modelled by an arbitrary monad
carrier `m`. The SQLite service wraps the (synchronous, better-sqlite3
style) result in `Promise.resolve`, modelled by `pure` in the identity
monad, under which promise adoption is the identity. -/

/-- A drizzle database exposing its transaction runner: it takes the
callback over the transaction handle `δ` and produces the effect `m ρ`. -/
structure TxDb (δ : Type) (m : Type → Type) (ρ : Type) where
  transaction : (δ → m ρ) → m ρ

/-- The spec side of the transaction claim, written from the spec words:
forward the callback to the ORM transaction method and return its result
unchanged. -/
def transactionSpec {δ : Type} {m : Type → Type} {ρ : Type}
    (db : TxDb δ m ρ) (cb : δ → m ρ) : m ρ :=
  db.transaction cb

/-- `transaction` of src/postgres/postgres.service.ts lines 114-116:
`return this.db.transaction(callback)`. -/
def pgTransaction {δ : Type} {m : Type → Type} {ρ : Type}
    (db : TxDb δ m ρ) (cb : δ → m ρ) : m ρ :=
  db.transaction cb

/-- `transaction` of the MySQL service (lines 71-73), identical body. -/
def mysqlTransaction {δ : Type} {m : Type → Type} {ρ : Type}
    (db : TxDb δ m ρ) (cb : δ → m ρ) : m ρ :=
  db.transaction cb

/-- A synchronous transaction runner (drizzle over better-sqlite3). -/
structure SyncTxDb (δ ρ : Type) where
  transaction : (δ → ρ) → ρ

/-- `transaction` of src/sqlite/sqlite.service.ts lines 88-90:
`return Promise.resolve(this.db.transaction(callback))`. -/
def sqliteTransaction {δ ρ : Type} (db : SyncTxDb δ ρ) (cb : δ → ρ) : Id ρ :=
  pure (db.transaction cb)

/-- C5: in all three adapter services the transaction wrapper is exactly
the forwarding of the callback to the ORM transaction method with the
result returned unchanged; for SQLite the `Promise.resolve` wrapping adds
nothing to the delivered value. -/
theorem transaction_wrappers_forward {δ ρ : Type} {m : Type → Type}
    (db : TxDb δ m ρ) (cb : δ → m ρ) (sdb : SyncTxDb δ ρ) (scb : δ → ρ) :
    pgTransaction db cb = transactionSpec db cb ∧
    mysqlTransaction db cb = transactionSpec db cb ∧
    sqliteTransaction sdb scb = sdb.transaction scb :=
  ⟨rfl, rfl, rfl⟩

/-! ## Module registration (forRoot) and the service constructor

`DrizzleModule.forRoot` of the Postgres, MySQL and SQLite modules, and the
options-taking constructor of the Postgres service, are embedded as
functions from the environment variables, the set of installed packages
and the options record to a value recording which underlying constructor
ran with which configuration, or the thrown error. Fields the modules
never inspect stay abstract type parameters: `σ` the schema, `φ` a fetch
implementation, `ρ` the rest-fields an object spread collects, `π`/`κ`
mysql2 pool/connection option objects, `l` extra libsql options. -/

/-- The environment variables the modules read. -/
structure Env where
  databaseUrl : Option String
  tursoAuthToken : Option String

/-- Modelled from Node's module loader (external to this repository):
`require(name)` succeeds exactly when the package is installed, and
otherwise throws an error whose message names the module. -/
def requireMod (avail : String → Bool) (name : String) : Except String Unit :=
  if avail name then .ok () else .error ("Cannot find module '" ++ name ++ "'")

/-- Whether `pat` occurs as a substring of `s` (by characters). -/
def containsSub (s pat : String) : Bool :=
  (List.range (s.length + 1)).any
    (fun i => decide ((s.data.drop i).take pat.length = pat.data))

/-- The `driver` union of PostgresOptions. -/
inductive PgDriver
  | pool
  | client
  | neon
  | vercel
  deriving DecidableEq

/-- The `neon` option bag of PostgresOptions. -/
structure NeonOpts (φ : Type) where
  useHttp : Option Bool
  fetchImplementation : Option φ
  maxConnections : Option Nat
  endSessionOnClose : Option Bool

/-- The empty object `neon || {}` falls back to. -/
def NeonOpts.empty {φ : Type} : NeonOpts φ :=
  ⟨none, none, none, none⟩

/-- The `vercel` option bag of PostgresOptions. -/
structure VercelOpts where
  pooling : Option Bool
  maxConnections : Option Nat
  maxIdleTime : Option Nat

/-- The empty object `vercel || {}` falls back to. -/
def VercelOpts.empty : VercelOpts :=
  ⟨none, none, none⟩

/-- PostgresOptions as `forRoot` of src/postgres/postgres.module.ts
destructures it: `{ schema, connectionString, driver = 'pool', neon,
vercel, ...connection }`; `extra` is what the rest spread collects. -/
structure PgModuleOptions (σ φ ρ : Type) where
  schema : σ
  connectionString : Option String
  driver : Option PgDriver
  neon : Option (NeonOpts φ)
  vercel : Option VercelOpts
  extra : ρ

/-- The config object handed to `neonConnect` in the neon branch. -/
structure NeonConnectCfg (φ : Type) where
  url : String
  useHttp : Option Bool
  fetchImplementation : Option φ
  maxConnections : Option Nat
  endSessionOnClose : Option Bool

/-- The config object handed to the Vercel `createPool`. -/
structure VercelPoolCfg where
  connectionString : String
  pooling : Option Bool
  maxConnections : Option Nat
  maxIdleTime : Option Nat

/-- The config object handed to `new Pool` in the default branch:
`{ connectionString: dbUrl, ...connection }`. -/
structure PgPoolCfg (ρ : Type) where
  connectionString : String
  extra : ρ

/-- What Postgres `forRoot` did: which driver constructor it invoked with
which config and schema, or the error it threw. -/
inductive PgModuleInit (σ φ ρ : Type)
  | neonDb (cfg : NeonConnectCfg φ) (schema : σ)
  | vercelDb (cfg : VercelPoolCfg) (schema : σ)
  | poolDb (cfg : PgPoolCfg ρ) (schema : σ)
  | fail (msg : String)

/-- Embeds `DrizzleModule.forRoot` of src/postgres/postgres.module.ts:
resolve the connection string first, then branch on the driver (default
`pool`); the neon and vercel branches dynamically require their packages
and rethrow the loader error on failure. -/
def pgForRoot {σ φ ρ : Type} (env : Env) (avail : String → Bool)
    (o : PgModuleOptions σ φ ρ) : PgModuleInit σ φ ρ :=
  match databaseWithDefault o.connectionString env.databaseUrl with
  | .error m => .fail m
  | .ok dbUrl =>
    match o.driver.getD .pool with
    | .neon =>
      match requireMod avail "@neondatabase/serverless" with
      | .error e => .fail e
      | .ok _ =>
        match requireMod avail "drizzle-orm/neon-serverless" with
        | .error e => .fail e
        | .ok _ =>
          let n := o.neon.getD .empty
          .neonDb ⟨dbUrl, n.useHttp, n.fetchImplementation, n.maxConnections,
            n.endSessionOnClose⟩ o.schema
    | .vercel =>
      match requireMod avail "@vercel/postgres" with
      | .error e => .fail e
      | .ok _ =>
        match requireMod avail "drizzle-orm/vercel-postgres" with
        | .error e => .fail e
        | .ok _ =>
          let v := o.vercel.getD .empty
          .vercelDb ⟨dbUrl, v.pooling, v.maxConnections, v.maxIdleTime⟩
            o.schema
    | _ => .poolDb ⟨dbUrl, o.extra⟩ o.schema

/-- PostgresOptions as the constructor of
src/postgres/postgres.service.ts destructures it:
`{ schema, connectionString, ...connection }`; here `extra` stands for the
whole rest spread (which also carries the untouched driver/neon/vercel
fields along with the extra connection options). -/
structure PgServiceOptions (σ ρ : Type) where
  schema : σ
  connectionString : Option String
  driver : Option PgDriver
  extra : ρ

/-- `new Pool({ connectionString })` of the service pool branch. -/
structure PgPoolOnlyCfg where
  connectionString : String

/-- The drizzle config of the service pool branch:
`{ client: pool, schema, ...connection }`. -/
structure PgDrizzlePoolCfg (σ ρ : Type) where
  client : PgPoolOnlyCfg
  schema : σ
  extra : ρ

/-- The inner connection config of the service client branch:
`{ connectionString, ...connection }`. -/
structure PgConnCfg (ρ : Type) where
  connectionString : String
  extra : ρ

/-- The drizzle config of the service client branch:
`{ connection: {...}, schema }`. -/
structure PgDrizzleConnCfg (σ ρ : Type) where
  connection : PgConnCfg ρ
  schema : σ

/-- What the Postgres service constructor did. -/
inductive PgServiceInit (σ ρ : Type)
  | poolClient (cfg : PgDrizzlePoolCfg σ ρ)
  | connClient (cfg : PgDrizzleConnCfg σ ρ)
  | fail (msg : String)

/-- Embeds the constructor of src/postgres/postgres.service.ts lines
28-53: the pool branch runs only when `options?.driver === 'pool'`, every
other driver value takes the connection branch. -/
def pgServiceConstructor {σ ρ : Type} (env : Env)
    (o : PgServiceOptions σ ρ) : PgServiceInit σ ρ :=
  if o.driver = some .pool then
    match databaseWithDefault o.connectionString env.databaseUrl with
    | .error m => .fail m
    | .ok url => .poolClient ⟨⟨url⟩, o.schema, o.extra⟩
  else
    match databaseWithDefault o.connectionString env.databaseUrl with
    | .error m => .fail m
    | .ok url => .connClient ⟨⟨url, o.extra⟩, o.schema⟩

/-- The `driver` union of Mysql2Options. -/
inductive MysqlDriver
  | mysql
  | planetscale
  deriving DecidableEq

/-- The `planetscale` option bag of Mysql2Options. -/
structure PlanetscaleOpts where
  host : Option String
  username : Option String
  password : Option String
  database : Option String
  ssl : Option Bool

/-- The empty object `planetscale || {}` falls back to. -/
def PlanetscaleOpts.empty : PlanetscaleOpts :=
  ⟨none, none, none, none, none⟩

/-- The config object handed to the PlanetScale `connect`. -/
structure PlanetscaleConnectCfg where
  host : Option String
  username : Option String
  password : Option String
  database : Option String
  url : Option String
  ssl : Option Bool

/-- Mysql2Options as `forRoot` of src/mysql/mysql.module.ts destructures
it; the mysql2 pool / connection option objects stay abstract. -/
structure MysqlOptions (σ π κ : Type) where
  schema : σ
  connectionString : Option String
  driver : Option MysqlDriver
  planetscale : Option PlanetscaleOpts
  pool : Option π
  connection : Option κ

/-- The client the standard MySQL branch builds: `createPool(options.pool)`
when a pool bag is given, otherwise `createConnection` of either the given
connection bag or the `{ uri }` fallback. -/
inductive MysqlClientCfg (π κ : Type)
  | poolCfg (cfg : π)
  | connCfg (cfg : κ)
  | connUri (uri : String)

/-- What MySQL `forRoot` did. -/
inductive MysqlModuleInit (σ π κ : Type)
  | psDb (cfg : PlanetscaleConnectCfg) (schema : σ)
  | mysqlDb (client : MysqlClientCfg π κ) (schema : σ)
  | fail (msg : String)

/-- Embeds `DrizzleModule.forRoot` of src/mysql/mysql.module.ts: the
planetscale branch requires its packages and rethrows the loader error,
then connects with `connectionString || process.env.DATABASE_URL` and the
planetscale bag's fields; the standard branch prefers the pool bag, then
the connection bag, then the uri fallback (which alone consults
`databaseWithDefault`). -/
def mysqlForRoot {σ π κ : Type} (env : Env) (avail : String → Bool)
    (o : MysqlOptions σ π κ) : MysqlModuleInit σ π κ :=
  if o.driver.getD .mysql = .planetscale then
    match requireMod avail "@planetscale/database" with
    | .error e => .fail e
    | .ok _ =>
      match requireMod avail "drizzle-orm/planetscale-serverless" with
      | .error e => .fail e
      | .ok _ =>
        let url := if strTruthy o.connectionString then o.connectionString
          else env.databaseUrl
        let p := o.planetscale.getD .empty
        .psDb ⟨p.host, p.username, p.password, p.database, url, p.ssl⟩
          o.schema
  else
    match o.pool with
    | some p => .mysqlDb (.poolCfg p) o.schema
    | none =>
      match o.connection with
      | some c => .mysqlDb (.connCfg c) o.schema
      | none =>
        match databaseWithDefault o.connectionString env.databaseUrl with
        | .error m => .fail m
        | .ok uri => .mysqlDb (.connUri uri) o.schema

/-- The `driver` union of SqliteOptions. -/
inductive SqliteDriver
  | sqlite
  | turso
  deriving DecidableEq

/-- SqliteOptions as `forRoot` of the SQLite module destructures it. -/
structure SqliteOptions (σ l : Type) where
  schema : σ
  url : Option String
  driver : Option SqliteDriver
  authToken : Option String
  libsqlOptions : Option l
  memory : Option Bool

/-- The config handed to the libsql `createClient`:
`{ url, authToken, ...libsqlOptions }`. -/
structure TursoClientCfg (l : Type) where
  url : String
  authToken : String
  libsqlOptions : Option l

/-- What SQLite `forRoot` did: a turso client, a better-sqlite3 database
on a file (or `:memory:`), or the thrown error. -/
inductive SqliteModuleInit (σ l : Type)
  | tursoDb (cfg : TursoClientCfg l) (schema : σ)
  | sqliteDb (file : String) (schema : σ)
  | fail (msg : String)

/-- The message of `getDefaultUrl` in the SQLite module. -/
def sqliteUrlRequiredMsg : String :=
  "Database URL is required. Provide it via options or DATABASE_URL environment variable."

/-- The turso auth-token error message of the SQLite module. -/
def tursoTokenRequiredMsg : String :=
  "Turso auth token is required. Provide it via options or TURSO_AUTH_TOKEN environment variable."

/-- Embeds `getDefaultUrl` of the SQLite module: throw unless
`process.env.DATABASE_URL` is truthy. -/
def getDefaultUrl (envDatabaseUrl : Option String) : Except String String :=
  if strTruthy envDatabaseUrl then .ok (envDatabaseUrl.getD "")
  else .error sqliteUrlRequiredMsg

/-- Embeds `DrizzleModule.forRoot` of the SQLite module: resolve
`url || getDefaultUrl()`, then for turso check the auth token (option or
`TURSO_AUTH_TOKEN`) before requiring `@libsql/client`; the default branch
requires `better-sqlite3`; both wrap a loader failure in a descriptive
message naming the package. -/
def sqliteForRoot {σ l : Type} (env : Env) (avail : String → Bool)
    (o : SqliteOptions σ l) : SqliteModuleInit σ l :=
  match (if strTruthy o.url then .ok (o.url.getD "")
    else getDefaultUrl env.databaseUrl : Except String String) with
  | .error m => .fail m
  | .ok dbUrl =>
    if o.driver.getD .sqlite = .turso then
      if !strTruthy o.authToken && !strTruthy env.tursoAuthToken then
        .fail tursoTokenRequiredMsg
      else
        match requireMod avail "@libsql/client" with
        | .error e =>
          .fail ("Failed to load @libsql/client. Make sure it's installed: "
            ++ e)
        | .ok _ =>
          .tursoDb ⟨dbUrl,
            (if strTruthy o.authToken then o.authToken
              else env.tursoAuthToken).getD "",
            o.libsqlOptions⟩ o.schema
    else
      match requireMod avail "better-sqlite3" with
      | .error e =>
        .fail ("Failed to load better-sqlite3. Make sure it's installed: "
          ++ e)
      | .ok _ =>
        .sqliteDb (if o.memory.getD false then ":memory:" else dbUrl)
          o.schema

/-- C6: in every driver branch of module registration (and of the
options-taking Postgres service constructor), the configuration fields
other than schema, connection string and the driver selector reach the
underlying constructor unmodified: the rest-spread fields appear unchanged
in the config object handed to the constructor, the neon / vercel /
planetscale bags are forwarded field by field, and the mysql2 pool /
connection bags are passed through whole. -/
theorem config_extras_passed_through {σ φ ρ π κ : Type} (env : Env)
    (avail : String → Bool) (oPg : PgModuleOptions σ φ ρ)
    (oSvc : PgServiceOptions σ ρ) (oMy : MysqlOptions σ π κ)
    (dbUrl : String) (p : π) (c : κ) :
    (databaseWithDefault oPg.connectionString env.databaseUrl = .ok dbUrl →
      oPg.driver.getD .pool = .pool →
      pgForRoot env avail oPg = .poolDb ⟨dbUrl, oPg.extra⟩ oPg.schema) ∧
    (databaseWithDefault oPg.connectionString env.databaseUrl = .ok dbUrl →
      oPg.driver.getD .pool = .neon →
      avail "@neondatabase/serverless" = true →
      avail "drizzle-orm/neon-serverless" = true →
      pgForRoot env avail oPg = .neonDb
        ⟨dbUrl, (oPg.neon.getD .empty).useHttp,
          (oPg.neon.getD .empty).fetchImplementation,
          (oPg.neon.getD .empty).maxConnections,
          (oPg.neon.getD .empty).endSessionOnClose⟩ oPg.schema) ∧
    (databaseWithDefault oPg.connectionString env.databaseUrl = .ok dbUrl →
      oPg.driver.getD .pool = .vercel →
      avail "@vercel/postgres" = true →
      avail "drizzle-orm/vercel-postgres" = true →
      pgForRoot env avail oPg = .vercelDb
        ⟨dbUrl, (oPg.vercel.getD .empty).pooling,
          (oPg.vercel.getD .empty).maxConnections,
          (oPg.vercel.getD .empty).maxIdleTime⟩ oPg.schema) ∧
    (databaseWithDefault oSvc.connectionString env.databaseUrl = .ok dbUrl →
      oSvc.driver = some .pool →
      pgServiceConstructor env oSvc =
        .poolClient ⟨⟨dbUrl⟩, oSvc.schema, oSvc.extra⟩) ∧
    (databaseWithDefault oSvc.connectionString env.databaseUrl = .ok dbUrl →
      oSvc.driver ≠ some .pool →
      pgServiceConstructor env oSvc =
        .connClient ⟨⟨dbUrl, oSvc.extra⟩, oSvc.schema⟩) ∧
    (oMy.driver.getD .mysql = .mysql → oMy.pool = some p →
      mysqlForRoot env avail oMy = .mysqlDb (.poolCfg p) oMy.schema) ∧
    (oMy.driver.getD .mysql = .mysql → oMy.pool = none →
      oMy.connection = some c →
      mysqlForRoot env avail oMy = .mysqlDb (.connCfg c) oMy.schema) ∧
    (oMy.driver.getD .mysql = .planetscale →
      avail "@planetscale/database" = true →
      avail "drizzle-orm/planetscale-serverless" = true →
      mysqlForRoot env avail oMy = .psDb
        ⟨(oMy.planetscale.getD .empty).host,
          (oMy.planetscale.getD .empty).username,
          (oMy.planetscale.getD .empty).password,
          (oMy.planetscale.getD .empty).database,
          (if strTruthy oMy.connectionString then oMy.connectionString
            else env.databaseUrl),
          (oMy.planetscale.getD .empty).ssl⟩ oMy.schema) := by
  refine ⟨?_, ?_, ?_, ?_, ?_, ?_, ?_, ?_⟩
  · intro hurl hd
    simp [pgForRoot, hurl, hd]
  · intro hurl hd h1 h2
    simp [pgForRoot, hurl, hd, requireMod, h1, h2]
  · intro hurl hd h1 h2
    simp [pgForRoot, hurl, hd, requireMod, h1, h2]
  · intro hurl hd
    simp [pgServiceConstructor, hurl, hd]
  · intro hurl hd
    simp [pgServiceConstructor, hurl, hd]
  · intro hd hp
    simp [mysqlForRoot, hd, hp]
  · intro hd hp hc
    simp [mysqlForRoot, hd, hp, hc]
  · intro hd h1 h2
    simp [mysqlForRoot, hd, requireMod, h1, h2]

/-- Witness for C6: the Postgres default pool branch at concrete options
passes the rest fields through unchanged. -/
theorem config_extras_passed_through_witness :
    pgForRoot (σ := Unit) (φ := Unit) (ρ := Nat) ⟨none, none⟩
      (fun _ => false) ⟨(), some "postgres://db", none, none, none, 42⟩ =
      .poolDb ⟨"postgres://db", 42⟩ () :=
  (config_extras_passed_through (σ := Unit) (φ := Unit) (ρ := Nat)
    (π := Unit) (κ := Unit) ⟨none, none⟩ (fun _ => false)
    ⟨(), some "postgres://db", none, none, none, 42⟩
    ⟨(), some "postgres://db", none, 0⟩
    ⟨(), none, none, none, none, none⟩
    "postgres://db" () ()).1 rfl rfl

/-- C7 counterexample: with driver turso, a resolvable url, no auth token
anywhere and the `@libsql/client` package missing, registration raises the
auth-token error, whose message does not name the package to install. -/
theorem turso_missing_package_counterexample :
    sqliteForRoot (σ := Unit) (l := Unit) ⟨none, none⟩ (fun _ => false)
      ⟨(), some "libsql://db", some .turso, none, none, none⟩ =
      .fail tursoTokenRequiredMsg ∧
    containsSub tursoTokenRequiredMsg "@libsql/client" = false :=
  ⟨rfl, by decide⟩

/-- C7 (amended): provided the connection url resolves and, for turso, an
auth token is present, selecting neon, vercel, planetscale, turso or the
better-sqlite3 default with the corresponding package missing makes
registration raise an error whose message names the package: the rethrown
module-loader error for neon / vercel / planetscale, and a wrapped
descriptive error for the SQLite family. -/
theorem missing_driver_package_error_names_package {σ φ ρ π κ l : Type}
    (env : Env) (avail : String → Bool) (oPg : PgModuleOptions σ φ ρ)
    (oMy : MysqlOptions σ π κ) (oSq : SqliteOptions σ l) (dbUrl : String) :
    (databaseWithDefault oPg.connectionString env.databaseUrl = .ok dbUrl →
      oPg.driver.getD .pool = .neon →
      avail "@neondatabase/serverless" = false →
      ∃ m, pgForRoot env avail oPg = .fail m ∧
        containsSub m "@neondatabase/serverless" = true) ∧
    (databaseWithDefault oPg.connectionString env.databaseUrl = .ok dbUrl →
      oPg.driver.getD .pool = .vercel →
      avail "@vercel/postgres" = false →
      ∃ m, pgForRoot env avail oPg = .fail m ∧
        containsSub m "@vercel/postgres" = true) ∧
    (oMy.driver.getD .mysql = .planetscale →
      avail "@planetscale/database" = false →
      ∃ m, mysqlForRoot env avail oMy = .fail m ∧
        containsSub m "@planetscale/database" = true) ∧
    (strTruthy oSq.url = true → oSq.driver.getD .sqlite = .turso →
      strTruthy oSq.authToken = true →
      avail "@libsql/client" = false →
      ∃ m, sqliteForRoot env avail oSq = .fail m ∧
        containsSub m "@libsql/client" = true) ∧
    (strTruthy oSq.url = true → oSq.driver.getD .sqlite = .sqlite →
      avail "better-sqlite3" = false →
      ∃ m, sqliteForRoot env avail oSq = .fail m ∧
        containsSub m "better-sqlite3" = true) := by
  refine ⟨?_, ?_, ?_, ?_, ?_⟩
  · intro hurl hd hav
    refine ⟨"Cannot find module '@neondatabase/serverless'", ?_, by decide⟩
    simp [pgForRoot, hurl, hd, requireMod, hav]
  · intro hurl hd hav
    refine ⟨"Cannot find module '@vercel/postgres'", ?_, by decide⟩
    simp [pgForRoot, hurl, hd, requireMod, hav]
  · intro hd hav
    refine ⟨"Cannot find module '@planetscale/database'", ?_, by decide⟩
    simp [mysqlForRoot, hd, requireMod, hav]
  · intro hu hd ht hav
    refine ⟨"Failed to load @libsql/client. Make sure it's installed: "
      ++ "Cannot find module '@libsql/client'", ?_, by decide⟩
    simp [sqliteForRoot, hu, hd, ht, requireMod, hav]
  · intro hu hd hav
    refine ⟨"Failed to load better-sqlite3. Make sure it's installed: "
      ++ "Cannot find module 'better-sqlite3'", ?_, by decide⟩
    simp [sqliteForRoot, hu, hd, requireMod, hav]

/-- Witness for C7: planetscale selected and its package missing, at
concrete options. -/
theorem missing_driver_package_error_names_package_witness :
    ∃ m, mysqlForRoot (σ := Unit) (π := Unit) (κ := Unit) ⟨none, none⟩
      (fun _ => false) ⟨(), none, some .planetscale, none, none, none⟩ =
        .fail m ∧
      containsSub m "@planetscale/database" = true :=
  (missing_driver_package_error_names_package (σ := Unit) (φ := Unit)
    (ρ := Unit) (π := Unit) (κ := Unit) (l := Unit) ⟨none, none⟩
    (fun _ => false) ⟨(), none, none, none, none, ()⟩
    ⟨(), none, some .planetscale, none, none, none⟩
    ⟨(), none, none, none, none, none⟩ "").2.2.1 rfl rfl

/-- C8: for a turso options record whose url resolves and with the libsql
package installed, registration fails exactly when both the `authToken`
option and the `TURSO_AUTH_TOKEN` environment variable are unset (falsy),
and with the option falsy the environment token is the one handed to the
client. -/
theorem turso_token_error_iff_env_fallback {σ l : Type} (env : Env)
    (avail : String → Bool) (o : SqliteOptions σ l)
    (hd : o.driver = some .turso) (hu : strTruthy o.url = true)
    (hp : avail "@libsql/client" = true) :
    ((∃ m, sqliteForRoot env avail o = .fail m) ↔
      strTruthy o.authToken = false ∧ strTruthy env.tursoAuthToken = false) ∧
    (strTruthy o.authToken = false → strTruthy env.tursoAuthToken = true →
      sqliteForRoot env avail o =
        .tursoDb ⟨o.url.getD "", env.tursoAuthToken.getD "",
          o.libsqlOptions⟩ o.schema) := by
  cases hA : strTruthy o.authToken <;> cases hE : strTruthy env.tursoAuthToken <;>
    simp [sqliteForRoot, hu, hd, hp, requireMod, hA, hE]

/-- Witness for C8: auth token absent from the options, supplied by the
environment variable. -/
theorem turso_token_error_iff_env_fallback_witness :
    sqliteForRoot (σ := Unit) (l := Unit) ⟨none, some "tok"⟩ (fun _ => true)
      ⟨(), some "libsql://db", some .turso, none, none, none⟩ =
      .tursoDb ⟨"libsql://db", "tok", none⟩ () :=
  (turso_token_error_iff_env_fallback (σ := Unit) (l := Unit)
    ⟨none, some "tok"⟩ (fun _ => true)
    ⟨(), some "libsql://db", some .turso, none, none, none⟩
    rfl rfl rfl).2 rfl rfl

end NestjsDrizzle
